import Mathlib

/-!
Shallow embedding of the expense lifecycle and payout-safety engine of the
opencollective-api repository (file src/unnamed/part_000). Amounts are
integers in minor units, exchange rates are rationals, and JavaScript
Math.round is modelled as flooring after adding one half.
-/

deriving instance DecidableEq for Except

/-- Embedding of JavaScript Math.round on rationals: floor of x + 1/2. -/
def mathRound (x : ℚ) : ℤ := ⌊x + 1/2⌋

/-- Expense status enum, from ExpenseStatus in the source. -/
inductive ExpenseStatus
  | draft
  | unverified
  | pending
  | incomplete
  | approved
  | rejected
  | spam
  | error
  | scheduledForPayment
  | processing
  | paid
  | canceled
  | inviteDeclined
deriving DecidableEq, Repr

/-- Fees payer flag of an expense: COLLECTIVE or PAYEE. -/
inductive FeesPayer
  | collective
  | payee
deriving DecidableEq, Repr

/-- Payout method types used by payExpense. -/
inductive PayoutMethodType
  | paypal
  | bankAccount
  | accountBalance
  | stripe
  | other
deriving DecidableEq, Repr

/-- Error taxonomy raised by the embedded operations. -/
inductive OpError
  | unauthorized (msg : String)
  | featureNotAllowed
  | notFound (msg : String)
  | forbidden (msg : String)
  | validationFailed (msg : String)
  | internal (msg : String)
deriving DecidableEq, Repr

/-- FX pair statistics returned by CurrencyExchangeRate.getPairStats. -/
structure PairStats where
  latestRate : ℚ
  stddev : ℚ
deriving DecidableEq, Repr

/-- Worst-case rate used by checkHasBalanceToPayExpense:
latestRate minus two standard deviations. -/
def worstCaseRate (s : PairStats) : ℚ := s.latestRate - s.stddev * 2

/-- Safe amount required when FX pair statistics are available:
Math.round of amountToPay divided by the worst-case rate, as in the source
line safeAmount = Math.round(amountToPayInExpenseCurrency / rate). -/
def safeAmountWithStats (amountToPay : ℤ) (s : PairStats) : ℤ :=
  mathRound ((amountToPay : ℚ) / worstCaseRate s)

/-- Safe amount required when no FX statistics are available: the flat 20
percent margin, Math.round(amountToPayInExpenseCurrency * 1.2). -/
def safeAmountFallback (amountToPay : ℤ) : ℤ :=
  mathRound ((amountToPay : ℚ) * (6/5))

/-- Total amount to deduct from the payer, from checkHasBalanceToPayExpense:
amount plus processor fee when the collective pays fees, amount alone when
the payee pays fees. -/
def totalAmountToPay (feesPayer : FeesPayer) (amount processorFee : ℤ) : ℤ :=
  match feesPayer with
  | .collective => amount + processorFee
  | .payee => amount

/-- Inputs of checkHasBalanceToPayExpense. Fees come from getExpenseFees and
are treated as a parameter here; the FX rate oracle values are likewise
parameters. -/
structure BalanceCtx where
  balanceInCollectiveCurrency : ℤ
  amount : ℤ
  sameCurrency : Bool
  stats : Option PairStats
  feesPayer : FeesPayer
  payoutSupportsFeesPayer : Bool
  payoutIsStripe : Bool
  isSettlement : Bool
  processorFeeInExpenseCurrency : ℤ
  forceManual : Bool
  totalAmountPaidInHostCurrency : Option ℤ
  collectiveToHostFxRate : ℚ
deriving DecidableEq, Repr

/-- Embedding of the inner assertMinExpectedBalance closure. When the expense
and collective currency agree the balance is compared to the raw amount;
otherwise, with FX statistics, to the safe amount at the worst-case rate
(when that rate is exactly zero the JavaScript division yields Infinity or
NaN, so the check fails exactly for positive amounts); without statistics,
to the flat 20 percent margin. -/
def assertMinExpectedBalance (c : BalanceCtx) (amountToPay : ℤ) : Except OpError Unit :=
  if c.sameCurrency then
    if c.balanceInCollectiveCurrency < amountToPay then
      .error (.validationFailed "Collective does not have enough funds")
    else .ok ()
  else
    match c.stats with
    | some s =>
      if worstCaseRate s = 0 then
        if 0 < amountToPay then .error (.validationFailed "Collective does not have enough funds")
        else .ok ()
      else if c.balanceInCollectiveCurrency < safeAmountWithStats amountToPay s then
        .error (.validationFailed "Collective does not have enough funds")
      else .ok ()
    | none =>
      if c.balanceInCollectiveCurrency < safeAmountFallback amountToPay then
        .error (.validationFailed "Collective does not have enough funds")
      else .ok ()

/-- Embedding of checkHasBalanceToPayExpense. Returns the total amount to pay
on the regular path and none on the forceManual path, which returns a bare
fee bundle in the source. -/
def checkHasBalanceToPayExpense (c : BalanceCtx) : Except OpError (Option ℤ) :=
  if c.feesPayer = .payee ∧ ¬c.payoutSupportsFeesPayer then
    .error (.internal "Putting the payment processor fees on the payee is only supported for bank accounts, manual payouts and stripe at the moment")
  else if c.feesPayer = .payee ∧ ¬c.payoutIsStripe ∧ ¬c.sameCurrency then
    .error (.internal "Cannot put the payment processor fees on the payee when the expense currency is not the same as the collective currency")
  else if c.forceManual then
    match c.totalAmountPaidInHostCurrency with
    | none => .error (.internal "Total amount paid must be positive")
    | some totalPaid =>
      if totalPaid < 0 then .error (.internal "Total amount paid must be positive")
      else
        let balanceInHostCurrency := mathRound ((c.balanceInCollectiveCurrency : ℚ) * c.collectiveToHostFxRate)
        if ¬c.isSettlement ∧ balanceInHostCurrency < totalPaid then
          .error (.internal "Collective does not have enough funds to pay this expense")
        else .ok none
  else
    match (if c.isSettlement then .ok () else assertMinExpectedBalance c c.amount) with
    | .error e => .error e
    | .ok _ =>
      let total := totalAmountToPay c.feesPayer c.amount c.processorFeeInExpenseCurrency
      match (if c.isSettlement then .ok () else assertMinExpectedBalance c total) with
      | .error e => .error e
      | .ok _ => .ok (some total)

/-- Cache validity of the 2FA rolling limit counter, in seconds. -/
def ROLLING_LIMIT_CACHE_VALIDITY : ℕ := 3600

/-- Condition under which validateExpensePayout2FALimit demands a fresh 2FA
token: no cached counter yet, or the payout would push the counter past the
rolling limit. -/
def use2FAToken (pre : Option ℤ) (amountInHostCurrency limit : ℤ) : Bool :=
  pre.isNone || decide (pre.getD 0 + amountInHostCurrency > limit)

/-- Embedding of validateExpensePayout2FALimit: throws when the user has no
2FA configured or the request cannot be validated; otherwise returns the new
cached counter value (reset to 0 when a token was consumed, incremented by
the host-currency amount otherwise). -/
def validateExpensePayout2FALimit (userHas2FA twoFactorOk : Bool) (pre : Option ℤ)
    (amountInHostCurrency limit : ℤ) : Except OpError (Option ℤ) :=
  if ¬userHas2FA then
    .error (.internal "Host has two-factor authentication enabled for large payouts.")
  else if ¬twoFactorOk then
    .error (.unauthorized "Two-factor authentication required")
  else if use2FAToken pre amountInHostCurrency limit then .ok (some 0)
  else .ok (some (pre.getD 0 + amountInHostCurrency))

/-- Inputs of payExpense that the embedding does not compute itself: the
acting user, permission outcomes, the payout method type, 2FA configuration,
the cached rolling counter, and whether the dispatch attempt throws. -/
structure PayCtx where
  remoteUser : Bool
  featureOk : Bool
  found : Bool
  status : ExpenseStatus
  canPay : Bool
  multiCurrencyOk : Bool
  legacyDonation : Bool
  bal : BalanceCtx
  payoutType : PayoutMethodType
  host2FAEnabled : Bool
  userHas2FA : Bool
  twoFactorOk : Bool
  rollingLimit : ℤ
  preCounter : Option ℤ
  amountInHostCurrency : ℤ
  dispatchError : Option OpError
deriving DecidableEq, Repr

/-- Whether payExpense uses the 2FA rolling limit: PayPal or bank-account
payout, not forced manual, and the host has payout 2FA enabled. -/
def use2FARollingLimit (c : PayCtx) : Bool :=
  (c.payoutType = .paypal || c.payoutType = .bankAccount) && !c.bal.forceManual && c.host2FAEnabled

/-- Status reached by a successful dispatch: bank-account payouts end in
PROCESSING (webhook completes them later), every other path is marked PAID. -/
def dispatchSuccessStatus (forceManual : Bool) (t : PayoutMethodType) : ExpenseStatus :=
  if forceManual then .paid
  else match t with
  | .bankAccount => .processing
  | _ => .paid

/-- Observable outcome of one payExpense call: the result (new status on
success), the status after the call, whether the dispatch try-block was
entered, and the final cached rolling counter value. -/
structure PayResult where
  result : Except OpError ExpenseStatus
  statusAfter : ExpenseStatus
  dispatchAttempted : Bool
  counter : Option ℤ
deriving DecidableEq, Repr

/-- Embedding of payExpense: the guard sequence inside the expense lock, the
balance check, the 2FA rolling limit, the dispatch attempt and the catch
block that adjusts the rolling counter before re-throwing. -/
def payExpense (c : PayCtx) : PayResult :=
  if ¬c.remoteUser then
    ⟨.error (.unauthorized "You need to be logged in to pay an expense"), c.status, false, c.preCounter⟩
  else if ¬c.featureOk then ⟨.error .featureNotAllowed, c.status, false, c.preCounter⟩
  else if ¬c.found then ⟨.error (.notFound "Expense not found"), c.status, false, c.preCounter⟩
  else if c.status = .paid then
    ⟨.error (.forbidden "Expense has already been paid"), c.status, false, c.preCounter⟩
  else if c.status = .processing then
    ⟨.error (.forbidden "Expense is currently being processed, this means someone already started the payment process"), c.status, false, c.preCounter⟩
  else if c.status ≠ .approved ∧ c.status ≠ .error then
    ⟨.error (.forbidden "Expense needs to be approved"), c.status, false, c.preCounter⟩
  else if ¬c.canPay then
    ⟨.error (.forbidden "You do not have permission to pay this expense"), c.status, false, c.preCounter⟩
  else if ¬c.multiCurrencyOk then
    ⟨.error (.forbidden "Multi-currency expenses are not enabled for this collective"), c.status, false, c.preCounter⟩
  else if c.legacyDonation then
    ⟨.error (.internal "In kind donations are not supported anymore"), c.status, false, c.preCounter⟩
  else
    match checkHasBalanceToPayExpense c.bal with
    | .error e => ⟨.error e, c.status, false, c.preCounter⟩
    | .ok _ =>
      if use2FARollingLimit c then
        match validateExpensePayout2FALimit c.userHas2FA c.twoFactorOk c.preCounter
            c.amountInHostCurrency c.rollingLimit with
        | .error e => ⟨.error e, c.status, false, c.preCounter⟩
        | .ok counterAfter =>
          match c.dispatchError with
          | some e =>
            let finalCounter :=
              match c.preCounter with
              | some p => if p ≠ 0 then some (p - c.bal.amount) else counterAfter
              | none => counterAfter
            ⟨.error e, c.status, true, finalCounter⟩
          | none => ⟨.ok (dispatchSuccessStatus c.bal.forceManual c.payoutType),
              dispatchSuccessStatus c.bal.forceManual c.payoutType, true, counterAfter⟩
      else
        if ¬c.twoFactorOk then
          ⟨.error (.unauthorized "Two-factor authentication required"), c.status, false, c.preCounter⟩
        else
          match c.dispatchError with
          | some e => ⟨.error e, c.status, true, c.preCounter⟩
          | none => ⟨.ok (dispatchSuccessStatus c.bal.forceManual c.payoutType),
              dispatchSuccessStatus c.bal.forceManual c.payoutType, true, c.preCounter⟩

/-- Errors surfaced by lockExpense: the lookup failure, the soft-lock
conflict (retryable), or an error propagated from the callback. -/
inductive LockError (ε : Type)
  | notFound
  | alreadyProcessing
  | callback (e : ε)
deriving DecidableEq, Repr

/-- Observable outcome of lockExpense: result, whether the callback ran, the
value of the isLocked flag while the callback ran, and the flag afterwards. -/
structure LockResult (ε α : Type) where
  result : Except (LockError ε) α
  callbackRan : Bool
  lockedDuringCallback : Bool
  lockedAfter : Bool
deriving DecidableEq, Repr

/-- Embedding of lockExpense: inside a row-locking transaction, fail when the
expense is missing or its data.isLocked flag is already true, otherwise set
the flag; then run the callback and unconditionally clear the flag in the
finally block, whether the callback returned or threw. -/
def lockExpense {ε α : Type} (found initiallyLocked : Bool) (callback : Except ε α) :
    LockResult ε α :=
  if ¬found then ⟨.error .notFound, false, initiallyLocked, initiallyLocked⟩
  else if initiallyLocked then ⟨.error .alreadyProcessing, false, true, true⟩
  else
    match callback with
    | .ok a => ⟨.ok a, true, true, false⟩
    | .error e => ⟨.error (.callback e), true, true, false⟩

/-- Policy EXPENSE_AUTHOR_CANNOT_APPROVE as read by getPolicy, with the host
flags appliesToHostedCollectives and appliesToSingleAdminCollectives. -/
structure AuthorCannotApprovePolicy where
  enabled : Bool
  amountInCents : ℤ
  appliesToHostedCollectives : Bool
  appliesToSingleAdminCollectives : Bool
deriving DecidableEq, Repr

/-- Inputs of canApprove other than the expense status. -/
structure ApproveCtx where
  scopeOk : Bool
  featureOk : Bool
  hostPolicy : AuthorCannotApprovePolicy
  collectivePolicy : AuthorCannotApprovePolicy
  collectiveAdminCount : ℕ
  amount : ℤ
  authorId : ℕ
  actorId : ℕ
  isHostAdmin : Bool
  isCollectiveAdmin : Bool
deriving DecidableEq, Repr

/-- Policy selection inside canApprove: the collective policy by default, the
host policy when it is enabled and applies to hosted collectives, except
that a single-admin collective falls back to the collective policy when the
host policy does not apply to single-admin collectives. -/
def effectiveApprovePolicy (c : ApproveCtx) : AuthorCannotApprovePolicy :=
  if c.hostPolicy.enabled ∧ c.hostPolicy.appliesToHostedCollectives then
    if ¬c.hostPolicy.appliesToSingleAdminCollectives ∧ c.collectiveAdminCount = 1 then
      c.collectivePolicy
    else c.hostPolicy
  else c.collectivePolicy

/-- Embedding of canApprove as a boolean predicate (the throwing variant
raises Forbidden exactly when this returns false). -/
def canApprove (c : ApproveCtx) (status : ExpenseStatus) : Bool :=
  if ¬c.scopeOk then false
  else if status ≠ .pending ∧ status ≠ .rejected ∧ status ≠ .incomplete then false
  else if ¬c.featureOk then false
  else if (effectiveApprovePolicy c).enabled
      ∧ (effectiveApprovePolicy c).amountInCents ≤ c.amount
      ∧ c.actorId = c.authorId then false
  else if status = .incomplete then c.isHostAdmin
  else c.isCollectiveAdmin || c.isHostAdmin

/-- Embedding of approveExpense: short-circuit on an already approved
expense, then the permission gate, then the status write plus activity. The
boolean in the result is true when the status was written and the activity
created. -/
def approveExpense (c : ApproveCtx) (status : ExpenseStatus) :
    Except OpError (ExpenseStatus × Bool) :=
  if status = .approved then .ok (status, false)
  else if ¬canApprove c status then .error (.forbidden "")
  else .ok (.approved, true)

/-- Embedding of unapproveExpense with the canUnapprove outcome abstracted as
a boolean input. -/
def unapproveExpense (canUnapprove : Bool) (status : ExpenseStatus) :
    Except OpError (ExpenseStatus × Bool) :=
  if status = .pending then .ok (status, false)
  else if ¬canUnapprove then .error (.forbidden "")
  else .ok (.pending, true)

/-- Embedding of rejectExpense with the canReject outcome abstracted as a
boolean input. -/
def rejectExpense (canReject : Bool) (status : ExpenseStatus) :
    Except OpError (ExpenseStatus × Bool) :=
  if status = .rejected then .ok (status, false)
  else if ¬canReject then .error (.forbidden "")
  else .ok (.rejected, true)

/-- Inputs of canMarkAsSpam other than the expense status. -/
structure SpamCtx where
  scopeOk : Bool
  featureOk : Bool
  isCollectiveAdmin : Bool
  isHostAdmin : Bool
  submitterIsPlatformUser : Bool
deriving DecidableEq, Repr

/-- Embedding of canMarkAsSpam: requires scope, status REJECTED, the feature
flag, a submitter other than the platform user, and an admin role. -/
def canMarkAsSpam (c : SpamCtx) (status : ExpenseStatus) : Bool :=
  c.scopeOk && status = .rejected && c.featureOk && !c.submitterIsPlatformUser
    && (c.isCollectiveAdmin || c.isHostAdmin)

/-- State touched by markExpenseAsSpam: the expense status, whether the
submitter has been limited from the USE_EXPENSES feature, and whether a
linked recurring expense record exists. -/
structure SpamState where
  status : ExpenseStatus
  submitterExpensesLimited : Bool
  hasRecurringExpense : Bool
deriving DecidableEq, Repr

/-- Embedding of markExpenseAsSpam: short-circuit on an already SPAM
expense, then the permission gate, then the status write, the submitter
feature limitation, and the destruction of any recurring expense. -/
def markExpenseAsSpam (c : SpamCtx) (s : SpamState) : Except OpError SpamState :=
  if s.status = .spam then .ok s
  else if ¬canMarkAsSpam c s.status then .error (.forbidden "")
  else .ok { status := .spam, submitterExpensesLimited := true, hasRecurringExpense := false }

/-- Lockable fields of an invite-draft expense (ExpenseLockableFields). -/
inductive LockableField
  | amount
  | description
  | expenseType
  | payee
deriving DecidableEq, Repr

/-- Inputs of checkLockedFields: the lockedFields list from the existing
expense data (absent when the key is missing) and, for each guarded field,
whether the submitted edit changes it. The payee comparison against the
stored draft payee is abstracted to a matching flag. -/
structure LockedCheckInput where
  lockedFields : Option (List LockableField)
  descriptionChanging : Bool
  typeChanging : Bool
  payeeProvided : Bool
  payeeMatches : Bool
  amountChanging : Bool
  currencyChanging : Bool
deriving DecidableEq, Repr

/-- Embedding of checkLockedFields: with no lockedFields list the check is
skipped; otherwise a change to a locked description, type or payee is
Forbidden, and locking AMOUNT forbids changing both the amount and the
currency. -/
def checkLockedFields (i : LockedCheckInput) : Except OpError Unit :=
  match i.lockedFields with
  | none => .ok ()
  | some fields =>
    if fields.contains .description ∧ i.descriptionChanging then
      .error (.forbidden "Description cannot be edited")
    else if fields.contains .expenseType ∧ i.typeChanging then
      .error (.forbidden "Type cannot be edited")
    else if fields.contains .payee ∧ i.payeeProvided ∧ ¬i.payeeMatches then
      .error (.forbidden "Payee cannot be edited")
    else if fields.contains .amount ∧ i.amountChanging then
      .error (.forbidden "Amount cannot be edited")
    else if fields.contains .amount ∧ i.currencyChanging then
      .error (.forbidden "Currency cannot be edited")
    else .ok ()

/-- Outcome of an editExpense call in the embedding: either only tags and
accounting category were persisted through the early path, or the full edit
was persisted. -/
inductive EditOutcome
  | tagsOnlyPersisted
  | persisted
deriving DecidableEq, Repr

/-- Inputs of the editExpense check sequence, in source order: the
tags-and-category early return, the type-change validation, multi-currency
support, tax validation, the canEditExpense permission, the paid credit-card
charge item requirement, the attached files count, the payee validation, and
finally the locked-fields input. -/
structure EditCtx where
  onlyTagsOrCategory : Bool
  typeChangeOk : Bool
  multiCurrencyOk : Bool
  taxesOk : Bool
  skipPermissionCheck : Bool
  canEdit : Bool
  isPaidCreditCardCharge : Bool
  hasItemChanges : Bool
  attachedFilesCount : ℕ
  payeeChangeOk : Bool
  locked : LockedCheckInput
deriving DecidableEq, Repr

/-- Embedding of the editExpense validation pipeline up to the point where
changes are persisted, in the order the source performs the checks. -/
def editExpense (c : EditCtx) : Except OpError EditOutcome :=
  if c.onlyTagsOrCategory then .ok .tagsOnlyPersisted
  else if ¬c.typeChangeOk then .error (.validationFailed "Expense type cannot be changed")
  else if ¬c.multiCurrencyOk then
    .error (.featureNotAllowed)
  else if ¬c.taxesOk then .error (.validationFailed "Taxes are not valid")
  else if ¬c.skipPermissionCheck ∧ ¬c.canEdit then
    .error (.forbidden "You do not have permission to edit this expense")
  else if c.isPaidCreditCardCharge ∧ ¬c.hasItemChanges then
    .error (.validationFailed "You need to include Expense Items when adding missing information to card charge expenses")
  else if c.attachedFilesCount > 15 then
    .error (.validationFailed "The number of files that you can attach to an expense is limited to 15")
  else if ¬c.payeeChangeOk then
    .error (.validationFailed "You must be an admin of the account to submit an expense in its name")
  else
    match checkLockedFields c.locked with
    | .error e => .error e
    | .ok _ => .ok .persisted

/-- Line item input as seen by checkExpenseItems: an optional amount and
whether a file url is attached. -/
structure ExpenseItemInput where
  amount : Option ℤ
  hasUrl : Bool
deriving DecidableEq, Repr

/-- Expense types. -/
inductive ExpType
  | receipt
  | invoice
  | grant
  | charge
  | settlement
  | unclassified
deriving DecidableEq, Repr

/-- Modelled from the spec: models.Expense.computeTotalAmountForExpense is
not part of the provided sources; per the spec the expense amount equals the
sum of line item amounts expressed in the expense currency plus taxes, so
the total is the item sum scaled by one plus the sum of tax rates, rounded
like the source rounds monetary values. -/
def computeTotalAmountForExpense (items : List ExpenseItemInput) (taxRates : List ℚ) : ℤ :=
  mathRound (((items.map (fun i => i.amount.getD 0)).sum : ℚ) * (1 + taxRates.sum))

/-- Embedding of checkExpenseItems: at least one item, at most 300 items,
every item amount set, a nonzero computed total (the source tests the total
for JavaScript falsiness), and the receipt/invoice file rules. -/
def checkExpenseItems (t : ExpType) (items : List ExpenseItemInput) (taxRates : List ℚ) :
    Except OpError Unit :=
  if items.length = 0 then
    .error (.validationFailed "Your expense needs to have at least one item")
  else if items.length > 300 then
    .error (.validationFailed "Expenses cannot have more than 300 items")
  else if items.any (fun i => i.amount.isNone) then
    .error (.validationFailed "Amount not set for item")
  else if computeTotalAmountForExpense items taxRates = 0 then
    .error (.validationFailed "The sum of all items must be above 0")
  else if t = .receipt ∧ items.any (fun i => ¬i.hasUrl) then
    .error (.validationFailed "Some items are missing a file")
  else if t = .invoice ∧ items.any (fun i => i.hasUrl) then
    .error (.validationFailed "Invoice items cannot have a file attached")
  else .ok ()

/-- Embedding of the attached files limit enforced by createExpense and
editExpense. -/
def checkAttachedFiles (count : ℕ) : Except OpError Unit :=
  if count > 15 then
    .error (.validationFailed "The number of files that you can attach to an expense is limited to 15")
  else .ok ()

/-- Helper: mathRound is monotone. -/
theorem mathRound_mono {a b : ℚ} (h : a ≤ b) : mathRound a ≤ mathRound b :=
  Int.floor_le_floor (by linarith)

/-- Claim C2: for every expense and every processor fee at least 0, the total
amount deducted from the payer is amount plus processor fee when the fees
payer is COLLECTIVE, and exactly the amount when the fees payer is PAYEE. -/
theorem c2_fees_payer_total (amount fee : ℤ) (hfee : 0 ≤ fee) :
    totalAmountToPay .collective amount fee = amount + fee
    ∧ totalAmountToPay .payee amount fee = amount :=
  ⟨rfl, rfl⟩

/-- Witness for C2 at amount 10000 and fee 250. -/
theorem c2_fees_payer_total_witness :
    (0 : ℤ) ≤ 250
    ∧ (totalAmountToPay .collective 10000 250 = 10000 + 250
        ∧ totalAmountToPay .payee 10000 250 = 10000) :=
  ⟨by decide, c2_fees_payer_total 10000 250 (by decide)⟩

/-- Claim C4: lockExpense fails immediately with the retryable
already-being-processed error when the isLocked flag is already set, without
running the callback; otherwise it sets the flag, runs the callback with the
flag set, mirrors the callback outcome, and always clears the flag
afterwards, whether the callback returned or threw. -/
theorem c4_soft_lock {ε α : Type} (cb : Except ε α) (initiallyLocked : Bool) :
    (initiallyLocked = true →
      lockExpense true initiallyLocked cb
        = ⟨.error .alreadyProcessing, false, true, true⟩)
    ∧ (initiallyLocked = false →
      (lockExpense true initiallyLocked cb).callbackRan = true
      ∧ (lockExpense true initiallyLocked cb).lockedDuringCallback = true
      ∧ (lockExpense true initiallyLocked cb).lockedAfter = false
      ∧ (lockExpense true initiallyLocked cb).result
          = (match cb with
            | .ok a => .ok a
            | .error e => .error (.callback e))) := by
  constructor
  · intro h
    subst h
    rfl
  · intro h
    subst h
    cases cb <;> exact ⟨rfl, rfl, rfl, rfl⟩

/-- Witness for C4: a callback that throws still leaves the lock cleared. -/
theorem c4_soft_lock_witness :
    ((false : Bool) = false)
    ∧ ((lockExpense true false (Except.error "boom" : Except String ℕ)).callbackRan = true
      ∧ (lockExpense true false (Except.error "boom" : Except String ℕ)).lockedDuringCallback = true
      ∧ (lockExpense true false (Except.error "boom" : Except String ℕ)).lockedAfter = false
      ∧ (lockExpense true false (Except.error "boom" : Except String ℕ)).result
          = .error (.callback "boom")) :=
  ⟨rfl, (c4_soft_lock (Except.error "boom" : Except String ℕ) false).2 rfl⟩

/-- Claim C7: a markExpenseAsSpam call that succeeds on an expense not
already in SPAM implies the expense was REJECTED and the submitter is not
the platform user, and its result has status SPAM, the submitter limited
from USE_EXPENSES, and no remaining recurring-expense record. -/
theorem c7_mark_as_spam (c : SpamCtx) (s s' : SpamState)
    (hns : s.status ≠ .spam) (hok : markExpenseAsSpam c s = .ok s') :
    s.status = .rejected ∧ c.submitterIsPlatformUser = false
    ∧ s'.status = .spam ∧ s'.submitterExpensesLimited = true
    ∧ s'.hasRecurringExpense = false := by
  unfold markExpenseAsSpam at hok
  rw [if_neg hns] at hok
  by_cases hperm : canMarkAsSpam c s.status = true
  · rw [if_neg (by simp [hperm])] at hok
    have hfields := hperm
    unfold canMarkAsSpam at hfields
    simp only [Bool.and_eq_true, decide_eq_true_eq, Bool.not_eq_true'] at hfields
    obtain ⟨⟨⟨⟨-, hstat⟩, -⟩, hplat⟩, -⟩ := hfields
    have hs' : s' = ⟨.spam, true, false⟩ := by
      cases hok
      rfl
    exact ⟨hstat, hplat, by rw [hs'], by rw [hs'], by rw [hs']⟩
  · rw [if_pos (by simpa using hperm)] at hok
    cases hok

/-- Witness for C7: a collective admin marks a REJECTED expense with a
recurring schedule as spam. -/
theorem c7_mark_as_spam_witness :
    (SpamState.status ⟨.rejected, false, true⟩ ≠ ExpenseStatus.spam)
    ∧ (SpamState.status ⟨.rejected, false, true⟩ = .rejected
      ∧ (false : Bool) = false
      ∧ SpamState.status ⟨.spam, true, false⟩ = .spam
      ∧ SpamState.submitterExpensesLimited ⟨.spam, true, false⟩ = true
      ∧ SpamState.hasRecurringExpense ⟨.spam, true, false⟩ = false) :=
  ⟨by decide,
    c7_mark_as_spam
      ⟨true, true, true, false, false⟩ ⟨.rejected, false, true⟩ ⟨.spam, true, false⟩
      (by decide) (by decide)⟩

/-- Claim C9: each status-transition action short-circuits at its destination
state before any permission check: approve on APPROVED, unapprove on
PENDING, reject on REJECTED and markAsSpam on SPAM return the expense
unchanged with no status write and no activity, for every actor context. -/
theorem c9_destination_idempotent (c : ApproveCtx) (cu cr : Bool) (cs : SpamCtx)
    (s : SpamState) (hs : s.status = .spam) :
    approveExpense c .approved = .ok (.approved, false)
    ∧ unapproveExpense cu .pending = .ok (.pending, false)
    ∧ rejectExpense cr .rejected = .ok (.rejected, false)
    ∧ markExpenseAsSpam cs s = .ok s := by
  refine ⟨rfl, rfl, rfl, ?_⟩
  unfold markExpenseAsSpam
  rw [if_pos hs]

/-- Witness for C9: all four short-circuits with actors whose permissions are
all denied. -/
theorem c9_destination_idempotent_witness :
    (SpamState.status ⟨.spam, false, true⟩ = ExpenseStatus.spam)
    ∧ (approveExpense
          ⟨false, false, ⟨false, 0, false, false⟩, ⟨false, 0, false, false⟩, 0, 0, 0, 0, false, false⟩
          .approved = .ok (.approved, false)
      ∧ unapproveExpense false .pending = .ok (.pending, false)
      ∧ rejectExpense false .rejected = .ok (.rejected, false)
      ∧ markExpenseAsSpam ⟨false, false, false, false, true⟩ ⟨.spam, false, true⟩
          = .ok ⟨.spam, false, true⟩) :=
  ⟨rfl,
    c9_destination_idempotent
      ⟨false, false, ⟨false, 0, false, false⟩, ⟨false, 0, false, false⟩, 0, 0, 0, 0, false, false⟩
      false false ⟨false, false, false, false, true⟩ ⟨.spam, false, true⟩ rfl⟩

/-- Claim C10 counterexample: a single item of amount -5 passes
checkExpenseItems although its total is not above 0, because the source only
rejects a total that is exactly zero. -/
theorem c10_negative_total_passes :
    checkExpenseItems .unclassified [⟨some (-5), false⟩] [] = .ok ()
    ∧ computeTotalAmountForExpense [⟨some (-5), false⟩] [] < 0 := by
  have htot : computeTotalAmountForExpense [⟨some (-5), false⟩] [] = -5 := by
    norm_num [computeTotalAmountForExpense, mathRound]
  constructor
  · unfold checkExpenseItems
    rw [htot]
    decide
  · rw [htot]
    decide

/-- Claim C10 as amended: creation and edit enforce at least one item, at
most 300 items, an amount on every item, a nonzero item total after taxes
(only an exactly-zero total is rejected, a negative total passes), and at
most 15 attached files, each violation raising ValidationFailed. -/
theorem c10_structural_limits (t : ExpType) (items : List ExpenseItemInput)
    (taxRates : List ℚ) (count : ℕ) :
    (items.length = 0 →
      checkExpenseItems t items taxRates
        = .error (.validationFailed "Your expense needs to have at least one item"))
    ∧ (items.length > 300 →
      checkExpenseItems t items taxRates
        = .error (.validationFailed "Expenses cannot have more than 300 items"))
    ∧ (1 ≤ items.length → items.length ≤ 300 →
      items.any (fun i => i.amount.isNone) = true →
      checkExpenseItems t items taxRates
        = .error (.validationFailed "Amount not set for item"))
    ∧ (1 ≤ items.length → items.length ≤ 300 →
      items.any (fun i => i.amount.isNone) = false →
      computeTotalAmountForExpense items taxRates = 0 →
      checkExpenseItems t items taxRates
        = .error (.validationFailed "The sum of all items must be above 0"))
    ∧ (checkExpenseItems t items taxRates = .ok () →
      1 ≤ items.length ∧ items.length ≤ 300
      ∧ items.any (fun i => i.amount.isNone) = false
      ∧ computeTotalAmountForExpense items taxRates ≠ 0)
    ∧ (count > 15 →
      checkAttachedFiles count
        = .error (.validationFailed "The number of files that you can attach to an expense is limited to 15"))
    ∧ (count ≤ 15 → checkAttachedFiles count = .ok ()) := by
  refine ⟨?_, ?_, ?_, ?_, ?_, ?_, ?_⟩
  · intro h
    unfold checkExpenseItems
    rw [if_pos h]
  · intro h
    unfold checkExpenseItems
    rw [if_neg (by omega), if_pos h]
  · intro h1 h2 h3
    unfold checkExpenseItems
    rw [if_neg (by omega), if_neg (by omega), if_pos h3]
  · intro h1 h2 h3 h4
    unfold checkExpenseItems
    rw [if_neg (by omega), if_neg (by omega), if_neg (by simp [h3]), if_pos h4]
  · intro h
    unfold checkExpenseItems at h
    split_ifs at h with g1 g2 g3 g4 g5 g6
    exact ⟨by omega, by omega, by simpa using g3, g4⟩
  · intro h
    unfold checkAttachedFiles
    rw [if_pos h]
  · intro h
    unfold checkAttachedFiles
    rw [if_neg (by omega)]

/-- Witness for C10: an empty item list is rejected and 16 attached files
are rejected. -/
theorem c10_structural_limits_witness :
    (([] : List ExpenseItemInput).length = 0
      → checkExpenseItems .invoice [] [] = .error (.validationFailed "Your expense needs to have at least one item"))
    ∧ (16 > 15
      → checkAttachedFiles 16 = .error (.validationFailed "The number of files that you can attach to an expense is limited to 15"))
    ∧ checkExpenseItems .invoice [] [] = .error (.validationFailed "Your expense needs to have at least one item")
    ∧ checkAttachedFiles 16 = .error (.validationFailed "The number of files that you can attach to an expense is limited to 15") :=
  ⟨(c10_structural_limits .invoice [] [] 16).1,
    (c10_structural_limits .invoice [] [] 16).2.2.2.2.2.1,
    (c10_structural_limits .invoice [] [] 16).1 rfl,
    (c10_structural_limits .invoice [] [] 16).2.2.2.2.2.1 (by decide)⟩

/-- Claim C8 counterexample: an edit that changes a locked AMOUNT while also
attaching 16 files is rejected by the attached-files check with
ValidationFailed, so the locked-fields check neither runs before all other
edit logic nor is a Forbidden error guaranteed for a locked-field change. -/
theorem c8_locked_check_not_first :
    editExpense
      { onlyTagsOrCategory := false, typeChangeOk := true, multiCurrencyOk := true,
        taxesOk := true, skipPermissionCheck := false, canEdit := true,
        isPaidCreditCardCharge := false, hasItemChanges := true, attachedFilesCount := 16,
        payeeChangeOk := true,
        locked := ⟨some [.amount], false, false, false, true, true, false⟩ }
      = .error (.validationFailed "The number of files that you can attach to an expense is limited to 15")
    ∧ ∀ msg,
      editExpense
        { onlyTagsOrCategory := false, typeChangeOk := true, multiCurrencyOk := true,
          taxesOk := true, skipPermissionCheck := false, canEdit := true,
          isPaidCreditCardCharge := false, hasItemChanges := true, attachedFilesCount := 16,
          payeeChangeOk := true,
          locked := ⟨some [.amount], false, false, false, true, true, false⟩ }
        ≠ .error (.forbidden msg) := by
  have hA :
      editExpense
        { onlyTagsOrCategory := false, typeChangeOk := true, multiCurrencyOk := true,
          taxesOk := true, skipPermissionCheck := false, canEdit := true,
          isPaidCreditCardCharge := false, hasItemChanges := true, attachedFilesCount := 16,
          payeeChangeOk := true,
          locked := ⟨some [.amount], false, false, false, true, true, false⟩ }
        = .error (.validationFailed "The number of files that you can attach to an expense is limited to 15") := by
    decide
  refine ⟨hA, fun msg h => ?_⟩
  rw [hA] at h
  exact absurd h (by simp)

/-- Claim C8 as amended: the locked-fields check runs inside editExpense
after the early tags-only path, the type, multi-currency, tax, permission,
paid-charge and attached-files checks, but before anything is persisted:
when those earlier checks pass, an edit changing a locked AMOUNT (which also
locks currency) fails with Forbidden regardless of the actors specific
permitted role and of the expense status, and no outcome is persisted. -/
theorem c8_locked_fields_block (c : EditCtx)
    (h0 : c.onlyTagsOrCategory = false) (h1 : c.typeChangeOk = true)
    (h2 : c.multiCurrencyOk = true) (h3 : c.taxesOk = true)
    (h4 : c.skipPermissionCheck = true ∨ c.canEdit = true)
    (h5 : ¬(c.isPaidCreditCardCharge = true ∧ c.hasItemChanges = false))
    (h6 : c.attachedFilesCount ≤ 15) (h7 : c.payeeChangeOk = true)
    (hf : ∃ fields, c.locked.lockedFields = some fields ∧ fields.contains .amount = true)
    (hch : c.locked.amountChanging = true ∨ c.locked.currencyChanging = true) :
    (∃ msg, editExpense c = .error (.forbidden msg))
    ∧ ∀ o, editExpense c ≠ .ok o := by
  obtain ⟨fields, hlf, hamt⟩ := hf
  have hlocked : ∃ msg, checkLockedFields c.locked = .error (.forbidden msg) := by
    simp only [checkLockedFields, hlf]
    split_ifs with g1 g2 g3 g4 g5
    · exact ⟨_, rfl⟩
    · exact ⟨_, rfl⟩
    · exact ⟨_, rfl⟩
    · exact ⟨_, rfl⟩
    · exact ⟨_, rfl⟩
    · rcases hch with hch | hch
      · exact absurd ⟨hamt, hch⟩ g4
      · exact absurd ⟨hamt, hch⟩ g5
  have hedit : ∀ r, checkLockedFields c.locked = r →
      editExpense c = (match r with | .error e => .error e | .ok _ => .ok .persisted) := by
    intro r hr
    unfold editExpense
    rw [if_neg (by simp [h0]), if_neg (by simp [h1]), if_neg (by simp [h2]),
      if_neg (by simp [h3]),
      if_neg (by rcases h4 with h4 | h4 <;> simp [h4]),
      if_neg (by intro hx; exact h5 ⟨hx.1, by simpa using hx.2⟩),
      if_neg (by omega), if_neg (by simp [h7]), hr]
  obtain ⟨msg, hmsg⟩ := hlocked
  refine ⟨⟨msg, ?_⟩, ?_⟩
  · rw [hedit _ hmsg]
  · intro o
    rw [hedit _ hmsg]
    simp

/-- Witness for C8: a DRAFT-stage edit by a permitted actor changing a
locked amount is Forbidden and nothing is persisted. -/
theorem c8_locked_fields_block_witness :
    (∃ msg,
      editExpense
        { onlyTagsOrCategory := false, typeChangeOk := true, multiCurrencyOk := true,
          taxesOk := true, skipPermissionCheck := false, canEdit := true,
          isPaidCreditCardCharge := false, hasItemChanges := true, attachedFilesCount := 2,
          payeeChangeOk := true,
          locked := ⟨some [.amount], false, false, false, true, true, false⟩ }
        = .error (.forbidden msg))
    ∧ ∀ o,
      editExpense
        { onlyTagsOrCategory := false, typeChangeOk := true, multiCurrencyOk := true,
          taxesOk := true, skipPermissionCheck := false, canEdit := true,
          isPaidCreditCardCharge := false, hasItemChanges := true, attachedFilesCount := 2,
          payeeChangeOk := true,
          locked := ⟨some [.amount], false, false, false, true, true, false⟩ }
        ≠ .ok o :=
  c8_locked_fields_block _ rfl rfl rfl rfl (Or.inr rfl) (by decide) (by decide) rfl
    ⟨[.amount], rfl, by decide⟩ (Or.inl rfl)

/-- Claim C6: canApprove accepts only PENDING, REJECTED or INCOMPLETE
expenses; an INCOMPLETE expense is never approvable by a non host admin,
collective admins included; the author cannot approve once the effective
author-cannot-approve policy is enabled and the amount reaches its
threshold; and the host policy takes precedence over the collective policy
unless the collective has a single admin and the host policy does not apply
to single-admin collectives. -/
theorem c6_can_approve (c : ApproveCtx) (status : ExpenseStatus) :
    (canApprove c status = true →
      status = .pending ∨ status = .rejected ∨ status = .incomplete)
    ∧ (c.isHostAdmin = false → canApprove c .incomplete = false)
    ∧ ((effectiveApprovePolicy c).enabled = true →
      (effectiveApprovePolicy c).amountInCents ≤ c.amount →
      c.actorId = c.authorId → canApprove c status = false)
    ∧ (c.hostPolicy.enabled = true → c.hostPolicy.appliesToHostedCollectives = true →
      (c.hostPolicy.appliesToSingleAdminCollectives = true ∨ c.collectiveAdminCount ≠ 1) →
      effectiveApprovePolicy c = c.hostPolicy)
    ∧ (c.hostPolicy.appliesToSingleAdminCollectives = false → c.collectiveAdminCount = 1 →
      effectiveApprovePolicy c = c.collectivePolicy) := by
  have key : ∀ st : ExpenseStatus, st ≠ .pending → st ≠ .rejected → st ≠ .incomplete →
      canApprove c st = false := by
    intro st n1 n2 n3
    unfold canApprove
    by_cases hs : c.scopeOk = true
    · rw [if_neg (by simp [hs]), if_pos ⟨n1, n2, n3⟩]
    · rw [if_pos (by simpa using hs)]
  refine ⟨?_, ?_, ?_, ?_, ?_⟩
  · intro h
    by_contra hn
    push_neg at hn
    rw [key status hn.1 hn.2.1 hn.2.2] at h
    exact absurd h (by simp)
  · intro hha
    unfold canApprove
    split_ifs with g1 g2 g3 g4 g5 <;>
      first
        | rfl
        | exact hha
        | exact absurd rfl g5
  · intro hp1 hp2 hp3
    unfold canApprove
    split_ifs with g1 g2 g3 g4 g5 <;>
      first
        | rfl
        | exact absurd ⟨hp1, hp2, hp3⟩ g4
  · intro he ha hsc
    unfold effectiveApprovePolicy
    rw [if_pos ⟨he, ha⟩, if_neg (by rcases hsc with h | h <;> simp [h])]
  · intro hs hc
    unfold effectiveApprovePolicy
    by_cases hh : c.hostPolicy.enabled = true ∧ c.hostPolicy.appliesToHostedCollectives = true
    · rw [if_pos hh, if_pos ⟨by simp [hs], hc⟩]
    · rw [if_neg hh]

/-- Witness for C6: a collective admin who is not host admin cannot approve
an INCOMPLETE expense, and a single-admin collective under a host policy
that spares single-admin collectives falls back to the collective policy. -/
theorem c6_can_approve_witness :
    canApprove
      ⟨true, true, ⟨true, 500, true, true⟩, ⟨false, 0, false, false⟩, 2, 1000, 7, 8, false, true⟩
      .incomplete = false
    ∧ effectiveApprovePolicy
        ⟨true, true, ⟨true, 500, true, false⟩, ⟨false, 0, false, false⟩, 1, 1000, 7, 8, false, true⟩
      = ⟨false, 0, false, false⟩ :=
  ⟨(c6_can_approve
      ⟨true, true, ⟨true, 500, true, true⟩, ⟨false, 0, false, false⟩, 2, 1000, 7, 8, false, true⟩
      .incomplete).2.1 rfl,
    (c6_can_approve
      ⟨true, true, ⟨true, 500, true, false⟩, ⟨false, 0, false, false⟩, 1, 1000, 7, 8, false, true⟩
      .pending).2.2.2.2 rfl rfl⟩

/-- Claim C1 counterexample: increasing the standard deviation from 0 to
1/10000 at latestRate 2 and amount 1000 leaves the required safe balance at
500, because the source rounds the safe amount to an integer, so the
required safe balance does not strictly increase with the stddev. -/
theorem c1_strict_increase_fails :
    (0 : ℚ) < 1/10000
    ∧ safeAmountWithStats 1000 ⟨2, 0⟩ = 500
    ∧ safeAmountWithStats 1000 ⟨2, 1/10000⟩ = 500
    ∧ ¬ safeAmountWithStats 1000 ⟨2, 0⟩ < safeAmountWithStats 1000 ⟨2, 1/10000⟩ := by
  have h1 : safeAmountWithStats 1000 ⟨2, 0⟩ = 500 := by
    norm_num [safeAmountWithStats, worstCaseRate, mathRound]
  have h2 : safeAmountWithStats 1000 ⟨2, 1/10000⟩ = 500 := by
    norm_num [safeAmountWithStats, worstCaseRate, mathRound]
  refine ⟨by norm_num, h1, h2, ?_⟩
  rw [h1, h2]
  decide

/-- Claim C1 as amended: with FX pair statistics the required safe balance
is the rounded amount divided by the worst-case rate latestRate minus two
standard deviations; at zero stddev this is exactly the rounded
amount / latestRate; the pre-rounding requirement strictly increases with
the stddev and the rounded requirement weakly increases; and with no
statistics the check requires the rounded amount times 1.2. -/
theorem c1_balance_margin (amount : ℤ) (r s1 s2 : ℚ) (bal : BalanceCtx)
    (hamt : 0 < amount) (h0 : 0 ≤ s1) (h12 : s1 ≤ s2) (hr2 : 0 < r - s2 * 2) :
    safeAmountWithStats amount ⟨r, 0⟩ = mathRound ((amount : ℚ) / r)
    ∧ safeAmountWithStats amount ⟨r, s1⟩ ≤ safeAmountWithStats amount ⟨r, s2⟩
    ∧ (s1 < s2 →
        (amount : ℚ) / worstCaseRate ⟨r, s1⟩ < (amount : ℚ) / worstCaseRate ⟨r, s2⟩)
    ∧ (bal.sameCurrency = false → bal.stats = some ⟨r, s1⟩ →
        (assertMinExpectedBalance bal amount = .ok ()
          ↔ safeAmountWithStats amount ⟨r, s1⟩ ≤ bal.balanceInCollectiveCurrency))
    ∧ (bal.sameCurrency = false → bal.stats = none →
        (assertMinExpectedBalance bal amount = .ok ()
          ↔ safeAmountFallback amount ≤ bal.balanceInCollectiveCurrency)) := by
  have hr1 : (0 : ℚ) < r - s1 * 2 := by linarith
  have hcast : (0 : ℚ) ≤ (amount : ℚ) := by exact_mod_cast hamt.le
  refine ⟨?_, ?_, ?_, ?_, ?_⟩
  · norm_num [safeAmountWithStats, worstCaseRate]
  · have hle : (amount : ℚ) / (r - s1 * 2) ≤ (amount : ℚ) / (r - s2 * 2) :=
      div_le_div_of_nonneg_left hcast hr2 (by linarith)
    simpa [safeAmountWithStats, worstCaseRate] using mathRound_mono hle
  · intro hlt
    have : (amount : ℚ) / (r - s1 * 2) < (amount : ℚ) / (r - s2 * 2) :=
      div_lt_div_of_pos_left (by exact_mod_cast hamt) hr2 (by linarith)
    simpa [worstCaseRate] using this
  · intro hsc hstats
    have hne : worstCaseRate ⟨r, s1⟩ ≠ 0 := ne_of_gt (by simpa [worstCaseRate] using hr1)
    simp only [assertMinExpectedBalance, hsc, hstats]
    rw [if_neg (by simp), if_neg hne]
    split_ifs with hlt
    · constructor
      · intro h
        exact absurd h (by simp)
      · intro h
        exact absurd h (not_le.mpr hlt)
    · exact ⟨fun _ => not_lt.mp hlt, fun _ => rfl⟩
  · intro hsc hstats
    simp only [assertMinExpectedBalance, hsc, hstats]
    rw [if_neg (by simp)]
    split_ifs with hlt
    · constructor
      · intro h
        exact absurd h (by simp)
      · intro h
        exact absurd h (not_le.mpr hlt)
    · exact ⟨fun _ => not_lt.mp hlt, fun _ => rfl⟩

/-- Witness for C1 at amount 1000, latestRate 2, stddevs 1/10 and 1/4. -/
theorem c1_balance_margin_witness :
    safeAmountWithStats 1000 ⟨2, 0⟩ = mathRound ((1000 : ℚ) / 2)
    ∧ safeAmountWithStats 1000 ⟨2, 1/10⟩ ≤ safeAmountWithStats 1000 ⟨2, 1/4⟩
    ∧ ((1/10 : ℚ) < 1/4 →
        (1000 : ℚ) / worstCaseRate ⟨2, 1/10⟩ < (1000 : ℚ) / worstCaseRate ⟨2, 1/4⟩) :=
  ⟨(c1_balance_margin 1000 2 (1/10) (1/4)
      ⟨1200, 1000, false, none, .collective, true, false, false, 0, false, none, 1⟩
      (by decide) (by norm_num) (by norm_num) (by norm_num)).1,
    (c1_balance_margin 1000 2 (1/10) (1/4)
      ⟨1200, 1000, false, none, .collective, true, false, false, 0, false, none, 1⟩
      (by decide) (by norm_num) (by norm_num) (by norm_num)).2.1,
    (c1_balance_margin 1000 2 (1/10) (1/4)
      ⟨1200, 1000, false, none, .collective, true, false, false, 0, false, none, 1⟩
      (by decide) (by norm_num) (by norm_num) (by norm_num)).2.2.1⟩

/-- Claim C3: payExpense only proceeds when the status is APPROVED or ERROR,
failing with Forbidden otherwise with dedicated messages for PAID and
PROCESSING; and on an insufficient payer balance it fails with
ValidationFailed before any dispatch attempt, leaving the status unchanged
at APPROVED. -/
theorem c3_pay_preconditions (c : PayCtx)
    (hru : c.remoteUser = true) (hfe : c.featureOk = true) (hfo : c.found = true) :
    (c.status ≠ .approved → c.status ≠ .error →
      (payExpense c).dispatchAttempted = false
      ∧ (payExpense c).statusAfter = c.status
      ∧ ∃ msg, (payExpense c).result = .error (.forbidden msg)
        ∧ (c.status = .paid → msg = "Expense has already been paid")
        ∧ (c.status = .processing →
            msg = "Expense is currently being processed, this means someone already started the payment process"))
    ∧ (c.status = .approved → c.canPay = true → c.multiCurrencyOk = true →
      c.legacyDonation = false → c.bal.forceManual = false →
      c.bal.feesPayer = .collective → c.bal.isSettlement = false →
      c.bal.sameCurrency = true →
      c.bal.balanceInCollectiveCurrency < c.bal.amount →
      (payExpense c).dispatchAttempted = false
      ∧ (payExpense c).statusAfter = .approved
      ∧ ∃ msg, (payExpense c).result = .error (.validationFailed msg)) := by
  constructor
  · intro hna hne
    unfold payExpense
    rw [if_neg (by simp [hru]), if_neg (by simp [hfe]), if_neg (by simp [hfo])]
    by_cases hp : c.status = .paid
    · rw [if_pos hp]
      exact ⟨rfl, rfl, "Expense has already been paid", rfl, fun _ => rfl,
        fun hq => absurd hq (by simp [hp])⟩
    · by_cases hq : c.status = .processing
      · rw [if_neg hp, if_pos hq]
        exact ⟨rfl, rfl,
          "Expense is currently being processed, this means someone already started the payment process",
          rfl, fun hx => absurd hx hp, fun _ => rfl⟩
      · rw [if_neg hp, if_neg hq, if_pos ⟨hna, hne⟩]
        exact ⟨rfl, rfl, "Expense needs to be approved", rfl,
          fun hx => absurd hx hp, fun hx => absurd hx hq⟩
  · intro hap hcp hmc hld hfm hfp hset hsc hlt
    have hassert : assertMinExpectedBalance c.bal c.bal.amount
        = .error (.validationFailed "Collective does not have enough funds") := by
      unfold assertMinExpectedBalance
      rw [if_pos (by simp [hsc]), if_pos hlt]
    have hbal : checkHasBalanceToPayExpense c.bal
        = .error (.validationFailed "Collective does not have enough funds") := by
      unfold checkHasBalanceToPayExpense
      rw [if_neg (by simp [hfp]), if_neg (by simp [hfp]), if_neg (by simp [hfm]),
        if_neg (by simp [hset]), hassert]
    unfold payExpense
    rw [if_neg (by simp [hru]), if_neg (by simp [hfe]), if_neg (by simp [hfo]),
      if_neg (by simp [hap]), if_neg (by simp [hap]), if_neg (by simp [hap]),
      if_neg (by simp [hcp]), if_neg (by simp [hmc]), if_neg (by simp [hld]), hbal]
    exact ⟨rfl, by rw [hap], "Collective does not have enough funds", rfl⟩

/-- Witness for C3: the concrete insufficient-balance scenario of the spec,
balance 5000 against amount 10000 with fees on the collective, and the
status-gate on a PAID expense. -/
theorem c3_pay_preconditions_witness :
    ((payExpense
        ⟨true, true, true, .paid, true, true, false,
          ⟨5000, 10000, true, none, .collective, true, false, false, 0, false, none, 1⟩,
          .bankAccount, false, true, true, 1000000, none, 10000, none⟩).dispatchAttempted = false
      ∧ (payExpense
        ⟨true, true, true, .paid, true, true, false,
          ⟨5000, 10000, true, none, .collective, true, false, false, 0, false, none, 1⟩,
          .bankAccount, false, true, true, 1000000, none, 10000, none⟩).statusAfter = .paid
      ∧ ∃ msg, (payExpense
        ⟨true, true, true, .paid, true, true, false,
          ⟨5000, 10000, true, none, .collective, true, false, false, 0, false, none, 1⟩,
          .bankAccount, false, true, true, 1000000, none, 10000, none⟩).result
            = .error (.forbidden msg)
        ∧ (ExpenseStatus.paid = ExpenseStatus.paid → msg = "Expense has already been paid")
        ∧ (ExpenseStatus.paid = ExpenseStatus.processing →
            msg = "Expense is currently being processed, this means someone already started the payment process"))
    ∧ ((payExpense
        ⟨true, true, true, .approved, true, true, false,
          ⟨5000, 10000, true, none, .collective, true, false, false, 0, false, none, 1⟩,
          .bankAccount, false, true, true, 1000000, none, 10000, none⟩).dispatchAttempted = false
      ∧ (payExpense
        ⟨true, true, true, .approved, true, true, false,
          ⟨5000, 10000, true, none, .collective, true, false, false, 0, false, none, 1⟩,
          .bankAccount, false, true, true, 1000000, none, 10000, none⟩).statusAfter = .approved
      ∧ ∃ msg, (payExpense
        ⟨true, true, true, .approved, true, true, false,
          ⟨5000, 10000, true, none, .collective, true, false, false, 0, false, none, 1⟩,
          .bankAccount, false, true, true, 1000000, none, 10000, none⟩).result
            = .error (.validationFailed msg)) :=
  ⟨(c3_pay_preconditions
      ⟨true, true, true, .paid, true, true, false,
        ⟨5000, 10000, true, none, .collective, true, false, false, 0, false, none, 1⟩,
        .bankAccount, false, true, true, 1000000, none, 10000, none⟩
      rfl rfl rfl).1 (by decide) (by decide),
    (c3_pay_preconditions
      ⟨true, true, true, .approved, true, true, false,
        ⟨5000, 10000, true, none, .collective, true, false, false, 0, false, none, 1⟩,
        .bankAccount, false, true, true, 1000000, none, 10000, none⟩
      rfl rfl rfl).2 rfl rfl rfl rfl rfl rfl rfl rfl (by decide)⟩

/-- Claim C5 evaluation at the failing input: with a cached rolling counter
of 300 and an expense of amount 100 in the host currency, the validate step
speculatively increments the counter to 400; when the dispatch then fails,
payExpense re-raises the original error unchanged but sets the counter to
the stale pre-attempt value minus the expense amount, 200, instead of
restoring the pre-attempt value 300: the speculative increment is not
rolled back, and with a cross-currency expense the subtracted amount is not
even converted to the host currency. -/
theorem c5_rollback_not_restoring :
    validateExpensePayout2FALimit true true (some 300) 100 1000000 = .ok (some 400)
    ∧ payExpense
        ⟨true, true, true, .approved, true, true, false,
          ⟨100000, 100, true, none, .collective, true, false, false, 0, false, none, 1⟩,
          .bankAccount, true, true, true, 1000000,
          some 300, 100, some (.internal "Transferwise provider error")⟩
      = ⟨.error (.internal "Transferwise provider error"), .approved, true, some 200⟩
    ∧ (some 200 : Option ℤ) ≠ some 300 := by
  refine ⟨by decide, ?_, by decide⟩
  decide
